import Mathlib

/-!
Shallow embedding of `src/hpe-3par-exporter.py` (class `HP3PARCollector`).

Python values that flow through the collector are modelled by `PyVal`;
CIM instances (`pywbem` records) by association lists from property name
to value.  Python exceptions and `sys.exit` are modelled with
`Except String`: inside a `try` block the error value is the exception
kind ("KeyError", "TypeError", ...); at the `except`/`sys.exit` boundary
it is mapped to the process exit status string ("1000" / "1100") that
`sys.exit` receives.  Because every exception handler in the source ends
in `sys.exit`, intermediate mutations of the metric dictionaries made
before an exception are unobservable (the process dies); the embedding
therefore computes the list of dictionary writes an instance produces and
applies them afterwards, which is observationally equivalent.
-/

/-- A Python scalar/sequence value as used by the collector: `None`, a
string, a number (CIM integer/real, modelled as `ℚ`), or a sequence.
(The rendering of sequence values by `str` is not exercised by any
identifying field and is modelled by a fixed placeholder.) -/
inductive PyVal where
  | none_ : PyVal
  | str : String → PyVal
  | num : ℚ → PyVal
  | arr : List PyVal → PyVal

/-- `str(v)` for the values interpolated into metric-key format strings.
Identifying fields are strings (or `None`) in every claim; the sequence
rendering is a placeholder. -/
def pyStr : PyVal → String
  | PyVal.none_ => "None"
  | PyVal.str s => s
  | PyVal.num q => toString q
  | PyVal.arr _ => "list"

/-- `v[0]` on a Python value: first element of a sequence; `TypeError`
on non-sequences (including `None`), `IndexError` on an empty one. -/
def index0 : PyVal → Except String PyVal
  | PyVal.arr (x :: _) => Except.ok x
  | PyVal.arr [] => Except.error "IndexError"
  | _ => Except.error "TypeError"

/-- One record returned by `EnumerateInstances`: property name ↦ value.
A property can be present with value `None` (nullable CIM property). -/
structure RawInstance where
  props : List (String × PyVal)

/-- `instance["k"]`: the property's value, or a `KeyError` when the
property is absent from the record. -/
def RawInstance.get (inst : RawInstance) (k : String) : Except String PyVal :=
  match inst.props.lookup k with
  | some v => Except.ok v
  | none => Except.error "KeyError"

/-- One step of the source's sanitisation chain
`.replace('.', '_').replace('[', '_').replace(']', '_').replace('-', '_')`:
each of the four single-character replacements acts independently on each
character, so the chain is a character map. -/
def sanitizeChar (c : Char) : Char :=
  if c = '.' ∨ c = '[' ∨ c = ']' ∨ c = '-' then '_' else c

/-- The full `.replace(...)` chain applied to a formatted metric key. -/
def sanitize (s : String) : String :=
  String.mk (s.toList.map sanitizeChar)

/-- `CIM_class[4:]`: strip the fixed 4-character `TPD_` namespace tag. -/
def stripTag (s : String) : String := String.mk (s.toList.drop 4)

/-- Helper for `pySplitChar`: accumulates the current piece (reversed). -/
def splitOnCharAux (c : Char) : List Char → List Char → List String
  | [], acc => [String.mk acc.reverse]
  | x :: xs, acc =>
      if x = c then String.mk acc.reverse :: splitOnCharAux c xs []
      else splitOnCharAux c xs (x :: acc)

/-- Python `s.split(c)` for a one-character separator: split at every
occurrence, keeping empty pieces (`"a\n".split("\n") == ["a", ""]`,
`"".split("\n") == [""]`). -/
def pySplitChar (c : Char) (s : String) : List String :=
  splitOnCharAux c s.toList []

/-- Helper for `pySplitPred`. -/
def splitPredAux (p : Char → Bool) : List Char → List Char → List String
  | [], acc => [String.mk acc.reverse]
  | x :: xs, acc =>
      if p x then String.mk acc.reverse :: splitPredAux p xs []
      else splitPredAux p xs (x :: acc)

/-- Split at every character satisfying `p`, keeping empty pieces. -/
def pySplitPred (p : Char → Bool) (s : String) : List String :=
  splitPredAux p s.toList []

/-- Python `s.strip()`: remove leading and trailing whitespace. -/
def pyTrim (s : String) : String :=
  String.mk
    (((s.toList.dropWhile Char.isWhitespace).reverse.dropWhile
        Char.isWhitespace).reverse)

/-- Decimal value of a digit list (most significant first). -/
def digitsVal (l : List Char) : ℕ :=
  l.foldl (fun a c => a * 10 + (c.toNat - 48)) 0

/-- Python `float(s)` on the decimal strings this program can meet:
optional surrounding whitespace, optional sign, digits with an optional
fractional part (at least one digit overall).  Exponent/`inf`/`nan`/
underscore forms accepted by CPython are not exercised here and are
modelled as failures.  `none` models `ValueError`. -/
def pyFloat? (s : String) : Option ℚ :=
  let t := (pyTrim s).toList
  let sgn : ℚ := match t with
    | '-' :: _ => -1
    | _ => 1
  let t1 : List Char := match t with
    | '+' :: r => r
    | '-' :: r => r
    | _ => t
  let ip := t1.takeWhile Char.isDigit
  let rest := t1.dropWhile Char.isDigit
  match rest with
  | [] => if ip.isEmpty then none else some (sgn * (digitsVal ip : ℚ))
  | '.' :: fp =>
      if fp.all Char.isDigit && !(ip.isEmpty && fp.isEmpty) then
        some (sgn * ((digitsVal ip : ℚ) + (digitsVal fp : ℚ) / (10 : ℚ) ^ fp.length))
      else none
  | _ => none

/-- `prometheus_client.core.GaugeMetricFamily`: a named family with a
help text, label keys, and accumulated samples (label values, value). -/
structure GaugeMetricFamily where
  name : String
  help_text : String
  labels : List String
  samples : List (List String × PyVal)

/-- `GaugeMetricFamily(name, help, labels=...)`. -/
def gaugeFamily (nm hl : String) (ls : List String) : GaugeMetricFamily :=
  { name := nm, help_text := hl, labels := ls, samples := [] }

/-- `family.add_metric(labelValues, value)`. -/
def GaugeMetricFamily.add_metric (f : GaugeMetricFamily)
    (lv : List String) (v : PyVal) : GaugeMetricFamily :=
  { f with samples := f.samples ++ [(lv, v)] }

/-- The source's two-line idiom `d[key] = GaugeMetricFamily(...)` followed
by `d[key].add_metric([storage_name], value)`: a fresh one-sample family. -/
def oneSample (nm hl sn : String) (v : PyVal) : GaugeMetricFamily :=
  (gaugeFamily nm hl ["storage_name"]).add_metric [sn] v

/-- A Python dict from metric key to family, in insertion order. -/
abbrev MetricDict := List (String × GaugeMetricFamily)

/-- Python dict assignment `d[k] = v`: replace the value in place when
the key is present (keys are unique in a Python dict, so replacing the
first occurrence suffices), append otherwise. -/
def setKey : MetricDict → String → GaugeMetricFamily → MetricDict
  | [], k, v => [(k, v)]
  | p :: t, k, v => if p.1 = k then (k, v) :: t else p :: setKey t k v

/-- Which of the six metric dictionaries of the collector a write targets. -/
inductive DictId where
  | health | oper | other_oper | led | battery | overprv
deriving DecidableEq

/-- One dictionary assignment performed by the collection code. -/
structure Write where
  dict : DictId
  key : String
  fam : GaugeMetricFamily

/-- The mutable state of `HP3PARCollector`: the configured storage name
and the six metric dictionaries (instance attributes, so they persist
across scrapes). -/
structure HP3PARCollector where
  storage_name : String
  health_metrics : MetricDict
  oper_metrics : MetricDict
  other_oper_metrics : MetricDict
  led_metrics : MetricDict
  battery_metrics : MetricDict
  overprv_metrics : MetricDict

/-- `HP3PARCollector.__init__`: the six dictionaries start empty. -/
def initCollector (sn : String) : HP3PARCollector :=
  { storage_name := sn, health_metrics := [], oper_metrics := [],
    other_oper_metrics := [], led_metrics := [], battery_metrics := [],
    overprv_metrics := [] }

/-- The fixed, ordered list of CIM classes (`self.list_CIM_classes`). -/
def list_CIM_classes : List String :=
  ["TPD_DynamicStoragePool", "TPD_NodeSystem", "TPD_DriveCage", "TPD_DiskDrive",
   "TPD_CagePowerSupply", "TPD_NodePowerSupply", "TPD_Battery", "TPD_Fan",
   "TPD_IDEDrive", "TPD_PhysicalMemory", "TPD_SASPort", "TPD_FCPort",
   "TPD_EthernetPort", "TPD_PCICard"]

/-- Apply one dictionary assignment to the collector state. -/
def applyWrite (st : HP3PARCollector) (w : Write) : HP3PARCollector :=
  match w.dict with
  | DictId.health => { st with health_metrics := setKey st.health_metrics w.key w.fam }
  | DictId.oper => { st with oper_metrics := setKey st.oper_metrics w.key w.fam }
  | DictId.other_oper => { st with other_oper_metrics := setKey st.other_oper_metrics w.key w.fam }
  | DictId.led => { st with led_metrics := setKey st.led_metrics w.key w.fam }
  | DictId.battery => { st with battery_metrics := setKey st.battery_metrics w.key w.fam }
  | DictId.overprv => { st with overprv_metrics := setKey st.overprv_metrics w.key w.fam }

/-- Apply a sequence of dictionary assignments in order. -/
def applyWrites (st : HP3PARCollector) (ws : List Write) : HP3PARCollector :=
  ws.foldl applyWrite st

/-- Source lines 120-139, the `if CIM_class in ['TPD_Fan', 'TPD_Battery',
'TPD_CagePowerSupply', 'TPD_NodePowerSupply']` block: keys from
`DeviceID`, health and oper writes, plus capacity/voltage for the
battery class when those properties are not `None`. -/
def writesBlockDevice (sn : String) (cls : String) (inst : RawInstance) :
    Except String (List Write) :=
  if cls ∈ ["TPD_Fan", "TPD_Battery", "TPD_CagePowerSupply", "TPD_NodePowerSupply"] then do
      let dev ← inst.get "DeviceID"
      let keyH := sanitize ("health_" ++ stripTag cls ++ "_" ++ pyStr dev)
      let keyO := sanitize ("oper_" ++ stripTag cls ++ "_" ++ pyStr dev)
      let hs ← inst.get "HealthState"
      let os0 ← index0 (← inst.get "OperationalStatus")
      let base :=
        [Write.mk DictId.health keyH (oneSample keyH ("Health State of " ++ cls) sn hs),
         Write.mk DictId.oper keyO (oneSample keyO ("Operational State of " ++ cls) sn os0)]
      if cls = "TPD_Battery" then do
        let keyC := sanitize ("battery_capacity_" ++ pyStr dev)
        let keyV := sanitize ("battery_voltage_" ++ pyStr dev)
        let rc ← inst.get "RemainingCapacity"
        let vo ← inst.get "Voltage"
        let wc := match rc with
          | PyVal.none_ => []
          | _ => [Write.mk DictId.battery keyC (oneSample keyC "Remaining Capacity of Battery" sn rc)]
        let wv := match vo with
          | PyVal.none_ => []
          | _ => [Write.mk DictId.battery keyV (oneSample keyV "Voltage of Battery" sn vo)]
        pure (base ++ wc ++ wv)
      else pure base
  else pure []

/-- Source lines 141-158, the block for the classes keyed by
`ElementName`: health and oper writes, plus the LED write for the node
system class and the other-oper write for the port classes. -/
def writesBlockElement (sn : String) (cls : String) (inst : RawInstance) :
    Except String (List Write) :=
  if cls ∈ ["TPD_NodeSystem", "TPD_DriveCage", "TPD_DiskDrive", "TPD_DynamicStoragePool",
            "TPD_SASPort", "TPD_FCPort", "TPD_EthernetPort"] then do
      let el ← inst.get "ElementName"
      let keyH := sanitize ("health_" ++ stripTag cls ++ "_" ++ pyStr el)
      let keyO := sanitize ("oper_" ++ stripTag cls ++ "_" ++ pyStr el)
      let hs ← inst.get "HealthState"
      let os0 ← index0 (← inst.get "OperationalStatus")
      let base :=
        [Write.mk DictId.health keyH (oneSample keyH ("Health State of " ++ cls) sn hs),
         Write.mk DictId.oper keyO (oneSample keyO ("Operational State of " ++ cls) sn os0)]
      if cls = "TPD_NodeSystem" then do
        let led ← inst.get "SystemLED"
        let keyL := sanitize ("led_" ++ stripTag cls ++ "_" ++ pyStr el)
        pure (base ++ [Write.mk DictId.led keyL (oneSample keyL ("LED State of " ++ cls) sn led)])
      else if cls ∈ ["TPD_SASPort", "TPD_FCPort", "TPD_EthernetPort"] then do
        let oo ← inst.get "OtherOperationalStatus"
        let keyOO := sanitize ("other_oper_" ++ stripTag cls ++ "_" ++ pyStr el)
        pure (base ++
          [Write.mk DictId.other_oper keyOO (oneSample keyOO ("Other Operational State of " ++ cls) sn oo)])
      else pure base
  else pure []

/-- Source lines 160-163, the block for `TPD_IDEDrive`/`TPD_PCICard`,
keyed by `Tag`: oper write only. -/
def writesBlockTag (sn : String) (cls : String) (inst : RawInstance) :
    Except String (List Write) :=
  if cls ∈ ["TPD_IDEDrive", "TPD_PCICard"] then do
    let tg ← inst.get "Tag"
    let keyO := sanitize ("oper_" ++ stripTag cls ++ "_" ++ pyStr tg)
    let os0 ← index0 (← inst.get "OperationalStatus")
    pure [Write.mk DictId.oper keyO (oneSample keyO ("Operational State of " ++ cls) sn os0)]
  else pure []

/-- Source lines 165-168, the block for `TPD_PhysicalMemory`, keyed by
`SerialNumber`: oper write only. -/
def writesBlockSerial (sn : String) (cls : String) (inst : RawInstance) :
    Except String (List Write) :=
  if cls = "TPD_PhysicalMemory" then do
    let serial ← inst.get "SerialNumber"
    let keyO := sanitize ("oper_" ++ stripTag cls ++ "_" ++ pyStr serial)
    let os0 ← index0 (← inst.get "OperationalStatus")
    pure [Write.mk DictId.oper keyO (oneSample keyO ("Operational State of " ++ cls) sn os0)]
  else pure []

/-- The dictionary writes produced for one instance of one CIM class by
the body of the loop in `_get_status_resources` (source lines 119-168).
The four `if CIM_class in ...` blocks are sequential; their guards are
disjoint over the actual class list.  Any failing property access raises,
which the caller turns into `sys.exit("1100")`. -/
def instanceWrites (sn : String) (cls : String) (inst : RawInstance) :
    Except String (List Write) := do
  let w1 ← writesBlockDevice sn cls inst
  let w2 ← writesBlockElement sn cls inst
  let w3 ← writesBlockTag sn cls inst
  let w4 ← writesBlockSerial sn cls inst
  pure (w1 ++ w2 ++ w3 ++ w4)

/-- The upstream world a collection pass runs against: whether each
connection attempt succeeds, the instances the WBEM query channel returns
per class, and the decoded stdout the SSH channel returns per command. -/
structure Env where
  wbemConnectOk : Bool
  sshConnectOk : Bool
  wbemData : String → List RawInstance
  sshExec : String → String

/-- The writes of one class's enumeration loop in
`_get_status_resources`: instances in enumeration order, appended to the
writes accumulated so far. -/
def classWrites (sn : String) (qry : String → List RawInstance)
    (acc : List Write) (cls : String) : Except String (List Write) :=
  (qry cls).foldlM
    (fun acc2 inst => do pure (acc2 ++ (← instanceWrites sn cls inst))) acc

/-- All dictionary writes of one `_get_status_resources` sweep: classes
in their fixed order, instances in enumeration order. -/
def statusWrites (sn : String) (qry : String → List RawInstance) :
    Except String (List Write) :=
  list_CIM_classes.foldlM (classWrites sn qry) []

/-- `hp_wbem_connect`: a connection failure is `sys.exit("1000")`. -/
def hp_wbem_connect (env : Env) : Except String Unit :=
  if env.wbemConnectOk then Except.ok () else Except.error "1000"

/-- `hp_ssh_connect`: a connection failure is `sys.exit("1000")`. -/
def hp_ssh_connect (env : Env) : Except String Unit :=
  if env.sshConnectOk then Except.ok () else Except.error "1000"

/-- `_get_status_resources`: on any exception inside the sweep, the
`except` clause logs and calls `sys.exit("1100")`. -/
def hp_get_status_resources (env : Env) (st : HP3PARCollector) :
    Except String HP3PARCollector :=
  match statusWrites st.storage_name env.wbemData with
  | Except.ok ws => Except.ok (applyWrites st ws)
  | Except.error _ => Except.error "1100"

/-- The per-pool body of `_get_overprovisioning` (source lines 183-194):
run `showspace -cpg <name>`, take line index 3 of stdout, split it on
single spaces, parse the last piece as a float, build the one-sample
family.  A missing line is `IndexError`, a non-parsing token `ValueError`. -/
def cpgWrite (sn : String) (ssh : String → String) (nm : String) :
    Except String Write :=
  let out := ssh ("showspace -cpg " ++ nm)
  let lns := pySplitChar (Char.ofNat 10) out
  match lns[3]? with
  | none => Except.error "IndexError"
  | some line3 =>
    let toks := pySplitChar ' ' line3
    let lastTok := toks.getLastD ""
    match pyFloat? lastTok with
    | none => Except.error "ValueError"
    | some q =>
      let key := sanitize ("overprv_DynamicStoragePool_" ++ nm)
      Except.ok (Write.mk DictId.overprv key
        (oneSample key ("Overprovisioning of " ++ nm) sn (PyVal.num q)))

/-- All writes of the overprovisioning loop: pools enumerated over the
query channel, one command per pool. -/
def overprvWrites (sn : String) (qry : String → List RawInstance)
    (ssh : String → String) : Except String (List Write) :=
  (qry "TPD_DynamicStoragePool").foldlM
    (fun acc cpg => do
      let nm := pyStr (← cpg.get "ElementName")
      pure (acc ++ [← cpgWrite sn ssh nm]))
    []

/-- `_get_overprovisioning`: first connect over SSH (failure exits with
"1000"); any exception in the loop is caught and becomes `sys.exit("1000")`. -/
def hp_get_overprovisioning (env : Env) (st : HP3PARCollector) :
    Except String HP3PARCollector := do
  hp_ssh_connect env
  match overprvWrites st.storage_name env.wbemData env.sshExec with
  | Except.ok ws => Except.ok (applyWrites st ws)
  | Except.error _ => Except.error "1000"

/-- `_update_metrics`: establish the WBEM connection, then run the status
sweep and the overprovisioning sweep against the same state. -/
def hp_update_metrics (env : Env) (st : HP3PARCollector) :
    Except String HP3PARCollector := do
  hp_wbem_connect env
  let st1 ← hp_get_status_resources env st
  hp_get_overprovisioning env st1

/-- The families `collect` yields, in source order: health, oper,
other_oper, led, battery, overprv dictionaries, each in insertion order. -/
def collectFamilies (st : HP3PARCollector) : List GaugeMetricFamily :=
  (st.health_metrics ++ st.oper_metrics ++ st.other_oper_metrics ++
   st.led_metrics ++ st.battery_metrics ++ st.overprv_metrics).map Prod.snd

/-- `collect`: run `_update_metrics`, then yield every family of the six
dictionaries.  The error value is the process exit status. -/
def collect (env : Env) (st : HP3PARCollector) :
    Except String (List GaugeMetricFamily × HP3PARCollector) :=
  (hp_update_metrics env st).map (fun s => (collectFamilies s, s))

/-- Modelled from the spec: the "last whitespace-separated token" of a
line, i.e. Python `line.split()[-1]` with no separator argument (runs
of arbitrary whitespace separate tokens).  Used only to compare the
spec's reading of the overprovisioning output contract with the
source's `line.split(' ')[-1:][0]`. -/
def specLastWhitespaceToken (l : String) : String :=
  ((pySplitPred Char.isWhitespace l).filter (fun t => !(t == ""))).getLastD ""

/-- The six metric dictionaries of the collector, indexed by `DictId`. -/
def dictOf (st : HP3PARCollector) : DictId → MetricDict
  | DictId.health => st.health_metrics
  | DictId.oper => st.oper_metrics
  | DictId.other_oper => st.other_oper_metrics
  | DictId.led => st.led_metrics
  | DictId.battery => st.battery_metrics
  | DictId.overprv => st.overprv_metrics

/-- The last family written to dictionary `d` at key `k` by a write
sequence, if any. -/
def lastWrite : List Write → DictId → String → Option GaugeMetricFamily
  | [], _, _ => none
  | w :: ws, d, k =>
    match lastWrite ws d k with
    | some f => some f
    | none => if w.dict = d ∧ w.key = k then some w.fam else none

/-- A metric family as the source builds every one of them: the single
label key `storage_name`, and exactly one sample labelled with the
configured storage name. -/
def GoodFam (sn : String) (f : GaugeMetricFamily) : Prop :=
  f.labels = ["storage_name"] ∧ ∃ v, f.samples = [([sn], v)]

/-- Membership of a (metric name, label values, value) triple in a list
of families — the sample set a scrape serves. -/
def SampleIn (fams : List GaugeMetricFamily) (n : String) (lv : List String)
    (v : PyVal) : Prop :=
  ∃ f ∈ fams, f.name = n ∧ (lv, v) ∈ f.samples

/- ------------------------------------------------------------------ -/
/- Concrete upstream environments used to instantiate the claims.      -/
/- ------------------------------------------------------------------ -/

/-- The spec's scenario fan instance extended with the status sequence
the code requires: `DeviceID "1.2"`, `HealthState 2`,
`OperationalStatus [2]`. -/
def fanInstOk : RawInstance :=
  ⟨[("DeviceID", PyVal.str "1.2"), ("HealthState", PyVal.num 2),
    ("OperationalStatus", PyVal.arr [PyVal.num 2])]⟩

/-- The spec's scenario fan instance exactly as written:
`{DeviceID: "1.2", HealthState: 2}`, no `OperationalStatus`. -/
def fanInstNoOper : RawInstance :=
  ⟨[("DeviceID", PyVal.str "1.2"), ("HealthState", PyVal.num 2)]⟩

/-- A record with no properties at all: no identifying field present. -/
def instNoFields : RawInstance := ⟨[]⟩

/-- A fan whose `DeviceID` contains a space. -/
def fanInstSpace : RawInstance :=
  ⟨[("DeviceID", PyVal.str "a b"), ("HealthState", PyVal.num 1),
    ("OperationalStatus", PyVal.arr [PyVal.num 2])]⟩

/-- A fan with `DeviceID "7"`. -/
def fanInstSeven : RawInstance :=
  ⟨[("DeviceID", PyVal.str "7"), ("HealthState", PyVal.num 1),
    ("OperationalStatus", PyVal.arr [PyVal.num 2])]⟩

/-- A complete battery instance: `DeviceID "B.1"`, non-null
`RemainingCapacity` and `Voltage`. -/
def batInstOk : RawInstance :=
  ⟨[("DeviceID", PyVal.str "B.1"), ("HealthState", PyVal.num 2),
    ("OperationalStatus", PyVal.arr [PyVal.num 2]),
    ("RemainingCapacity", PyVal.num 85), ("Voltage", PyVal.num 12)]⟩

/-- Upstream world returning one fan instance and nothing else; both
connections succeed; no storage pools, so the SSH channel is idle. -/
def envFanOnly (inst : RawInstance) : Env :=
  { wbemConnectOk := true, sshConnectOk := true,
    wbemData := fun c => if c = "TPD_Fan" then [inst] else [],
    sshExec := fun _ => "" }

/-- The working environment: one complete fan instance. -/
def envWorking : Env := envFanOnly fanInstOk

/-- Two fan instances with the same `DeviceID "0"` and different health
and status values: they collide on every metric key. -/
def envDupFan (v1 v2 : ℚ) : Env :=
  { wbemConnectOk := true, sshConnectOk := true,
    wbemData := fun c =>
      if c = "TPD_Fan" then
        [⟨[("DeviceID", PyVal.str "0"), ("HealthState", PyVal.num v1),
           ("OperationalStatus", PyVal.arr [PyVal.num v1])]⟩,
         ⟨[("DeviceID", PyVal.str "0"), ("HealthState", PyVal.num v2),
           ("OperationalStatus", PyVal.arr [PyVal.num v2])]⟩]
      else [],
    sshExec := fun _ => "" }

/-- A storage-pool record complete enough for the status sweep: the
status sweep also enumerates `TPD_DynamicStoragePool` and reads its
`ElementName`, `HealthState` and `OperationalStatus`. -/
def cpgPoolFull : RawInstance :=
  ⟨[("ElementName", PyVal.str "cpg0"), ("HealthState", PyVal.num 5),
    ("OperationalStatus", PyVal.arr [PyVal.num 2])]⟩

/-- Upstream world with one pool `cpg0` (and nothing else) whose
`showspace` command prints `out`. -/
def envPool (out : String) : Env :=
  { wbemConnectOk := true, sshConnectOk := true,
    wbemData := fun c => if c = "TPD_DynamicStoragePool" then [cpgPoolFull] else [],
    sshExec := fun _ => out }

/-- One healthy fan plus one pool whose command output is `out`: the
resource sweep succeeds before the overprovisioning sweep runs. -/
def envFanAndPool (out : String) : Env :=
  { wbemConnectOk := true, sshConnectOk := true,
    wbemData := fun c =>
      if c = "TPD_Fan" then [fanInstOk]
      else if c = "TPD_DynamicStoragePool" then [cpgPoolFull] else [],
    sshExec := fun _ => out }

/-- A world where establishing the WBEM query channel fails. -/
def envNoWbem : Env :=
  { wbemConnectOk := false, sshConnectOk := true,
    wbemData := fun _ => [], sshExec := fun _ => "" }

/-- A world where the query channel works (and returns no instances)
but establishing the SSH command channel fails. -/
def envNoSsh : Env :=
  { wbemConnectOk := true, sshConnectOk := false,
    wbemData := fun _ => [], sshExec := fun _ => "" }

/-- The state after one successful collection pass of `envWorking`
starting from `initCollector "s"`. -/
def stWorking : HP3PARCollector :=
  { storage_name := "s",
    health_metrics :=
      [("health_Fan_1_2",
        oneSample "health_Fan_1_2" "Health State of TPD_Fan" "s" (PyVal.num 2))],
    oper_metrics :=
      [("oper_Fan_1_2",
        oneSample "oper_Fan_1_2" "Operational State of TPD_Fan" "s" (PyVal.num 2))],
    other_oper_metrics := [], led_metrics := [], battery_metrics := [],
    overprv_metrics := [] }

/-- The families served for `stWorking`. -/
def famsWorking : List GaugeMetricFamily := collectFamilies stWorking

/- ------------------------------------------------------------------ -/
/- Lemmas about the dictionary model.                                  -/
/- ------------------------------------------------------------------ -/

theorem lookup_setKey (d : MetricDict) (k j : String) (v : GaugeMetricFamily) :
    (setKey d k v).lookup j = if j = k then some v else d.lookup j := by
  induction d with
  | nil =>
      by_cases h : j = k
      · simp [setKey, List.lookup, h]
      · have hb : (j == k) = false := beq_eq_false_iff_ne.mpr h
        simp [setKey, List.lookup, hb, h]
  | cons p t ih =>
      by_cases hp : p.1 = k
      · by_cases h : j = k
        · simp [setKey, hp, List.lookup, h]
        · have hb : (j == k) = false := beq_eq_false_iff_ne.mpr h
          have hb2 : (j == p.1) = false :=
            beq_eq_false_iff_ne.mpr (by rw [hp]; exact h)
          simp [setKey, hp, List.lookup, hb, hb2, h]
      · by_cases h : j = p.1
        · have hjk : ¬j = k := by rw [h]; exact hp
          have hb : (j == p.1) = true := beq_iff_eq.mpr h
          simp [setKey, hp, List.lookup, hb, hjk]
        · have hb : (j == p.1) = false := beq_eq_false_iff_ne.mpr h
          simp [setKey, hp, List.lookup, hb, ih]

theorem storage_name_applyWrite (st : HP3PARCollector) (w : Write) :
    (applyWrite st w).storage_name = st.storage_name := by
  cases w with
  | mk d k f => cases d <;> rfl

theorem storage_name_applyWrites (ws : List Write) (st : HP3PARCollector) :
    (applyWrites st ws).storage_name = st.storage_name := by
  induction ws generalizing st with
  | nil => rfl
  | cons w ws ih =>
      calc (applyWrites st (w :: ws)).storage_name
          = (applyWrites (applyWrite st w) ws).storage_name := rfl
        _ = (applyWrite st w).storage_name := ih _
        _ = st.storage_name := storage_name_applyWrite st w

theorem dictOf_applyWrite (st : HP3PARCollector) (w : Write) (d : DictId) :
    dictOf (applyWrite st w) d =
      if w.dict = d then setKey (dictOf st d) w.key w.fam else dictOf st d := by
  cases w with
  | mk wd k f => cases wd <;> cases d <;> simp [applyWrite, dictOf]

theorem lookup_dictOf_applyWrites (ws : List Write) (st : HP3PARCollector)
    (d : DictId) (k : String) :
    (dictOf (applyWrites st ws) d).lookup k =
      match lastWrite ws d k with
      | some f => some f
      | none => (dictOf st d).lookup k := by
  induction ws generalizing st with
  | nil => simp [applyWrites, lastWrite]
  | cons w ws ih =>
      have hstep : applyWrites st (w :: ws) = applyWrites (applyWrite st w) ws := rfl
      rw [hstep, ih]
      cases hlw : lastWrite ws d k with
      | some f => simp [lastWrite, hlw]
      | none =>
          have hcons : lastWrite (w :: ws) d k =
              if w.dict = d ∧ w.key = k then some w.fam else none := by
            simp [lastWrite, hlw]
          rw [dictOf_applyWrite]
          by_cases hd : w.dict = d
          · rw [if_pos hd, lookup_setKey]
            by_cases hk : k = w.key
            · rw [if_pos hk, hcons, if_pos ⟨hd, hk.symm⟩]
            · rw [if_neg hk, hcons, if_neg (fun hh => hk hh.2.symm)]
          · rw [if_neg hd, hcons,
              if_neg (fun hh : w.dict = d ∧ w.key = k => hd hh.1)]

theorem mem_keys_setKey (d : MetricDict) (k a : String) (v : GaugeMetricFamily) :
    a ∈ (setKey d k v).map Prod.fst ↔ a ∈ d.map Prod.fst ∨ a = k := by
  induction d with
  | nil => simp [setKey]
  | cons p t ih =>
      by_cases hp : p.1 = k
      · subst hp
        simp [setKey]
        tauto
      · simp [setKey, hp, ih]
        tauto

theorem nodup_keys_setKey (d : MetricDict) (k : String) (v : GaugeMetricFamily)
    (h : (d.map Prod.fst).Nodup) : ((setKey d k v).map Prod.fst).Nodup := by
  induction d with
  | nil => simp [setKey]
  | cons p t ih =>
      simp only [List.map_cons, List.nodup_cons] at h
      by_cases hp : p.1 = k
      · subst hp
        simpa [setKey] using h
      · have h1 : p.1 ∉ (setKey t k v).map Prod.fst := by
          rw [mem_keys_setKey]
          rintro (hh | hh)
          · exact h.1 hh
          · exact hp hh
        have hstep : setKey (p :: t) k v = p :: setKey t k v := by
          simp [setKey, hp]
        rw [hstep]
        simp only [List.map_cons, List.nodup_cons]
        exact ⟨h1, ih h.2⟩

theorem mem_of_lookup_eq_some {d : MetricDict} {k : String}
    {f : GaugeMetricFamily} (h : d.lookup k = some f) : (k, f) ∈ d := by
  induction d with
  | nil => simp [List.lookup] at h
  | cons p t ih =>
      cases hb : (k == p.1) with
      | true =>
          have hk : k = p.1 := beq_iff_eq.mp hb
          simp [List.lookup, hb] at h
          subst h hk
          exact List.mem_cons_self _ _
      | false =>
          simp [List.lookup, hb] at h
          exact List.mem_cons_of_mem _ (ih h)

theorem lookup_eq_some_of_mem {d : MetricDict} {k : String}
    {f : GaugeMetricFamily} (hnd : (d.map Prod.fst).Nodup)
    (h : (k, f) ∈ d) : d.lookup k = some f := by
  induction d with
  | nil => simp at h
  | cons p t ih =>
      simp only [List.map_cons, List.nodup_cons] at hnd
      rcases List.mem_cons.mp h with h1 | h1
      · subst h1
        simp [List.lookup]
      · have hk : ¬k = p.1 := by
          intro hh
          exact hnd.1 (hh ▸ (List.mem_map.mpr ⟨(k, f), h1, rfl⟩))
        have hb : (k == p.1) = false := beq_eq_false_iff_ne.mpr hk
        simp [List.lookup, hb]
        exact ih hnd.2 h1

/-- The collector state has Python-dict-shaped dictionaries: no
duplicate keys in any of the six. -/
def StNodup (st : HP3PARCollector) : Prop :=
  ∀ d : DictId, ((dictOf st d).map Prod.fst).Nodup

theorem stNodup_init (sn : String) : StNodup (initCollector sn) := by
  intro d
  cases d <;> simp [initCollector, dictOf]

theorem stNodup_applyWrite {st : HP3PARCollector} (w : Write)
    (h : StNodup st) : StNodup (applyWrite st w) := by
  intro d
  rw [dictOf_applyWrite]
  by_cases hd : w.dict = d
  · rw [if_pos hd]
    exact nodup_keys_setKey _ _ _ (h d)
  · rw [if_neg hd]
    exact h d

theorem stNodup_applyWrites {st : HP3PARCollector} (ws : List Write)
    (h : StNodup st) : StNodup (applyWrites st ws) := by
  induction ws generalizing st with
  | nil => exact h
  | cons w ws ih => exact ih (stNodup_applyWrite w h)

theorem mem_snd_setKey {d : MetricDict} {k : String}
    {v f : GaugeMetricFamily} (h : f ∈ (setKey d k v).map Prod.snd) :
    f = v ∨ f ∈ d.map Prod.snd := by
  induction d with
  | nil =>
      simp [setKey] at h
      exact Or.inl h
  | cons p t ih =>
      by_cases hp : p.1 = k
      · have hstep : setKey (p :: t) k v = (k, v) :: t := by simp [setKey, hp]
        rw [hstep, List.map_cons] at h
        rcases List.mem_cons.mp h with h | h
        · exact Or.inl h
        · exact Or.inr (by rw [List.map_cons]; exact List.mem_cons_of_mem _ h)
      · have hstep : setKey (p :: t) k v = p :: setKey t k v := by simp [setKey, hp]
        rw [hstep, List.map_cons] at h
        rcases List.mem_cons.mp h with h | h
        · exact Or.inr (by rw [List.map_cons]; exact h ▸ List.mem_cons_self _ _)
        · rcases ih h with h1 | h1
          · exact Or.inl h1
          · exact Or.inr (by rw [List.map_cons]; exact List.mem_cons_of_mem _ h1)

/-- Every family stored in every dictionary is `GoodFam`-shaped. -/
def StGood (sn : String) (st : HP3PARCollector) : Prop :=
  ∀ d : DictId, ∀ f ∈ (dictOf st d).map Prod.snd, GoodFam sn f

theorem stGood_init (sn : String) : StGood sn (initCollector sn) := by
  intro d f hf
  cases d <;> simp [initCollector, dictOf] at hf

theorem stGood_applyWrite {sn : String} {st : HP3PARCollector} {w : Write}
    (hw : GoodFam sn w.fam) (h : StGood sn st) : StGood sn (applyWrite st w) := by
  intro d f hf
  rw [dictOf_applyWrite] at hf
  by_cases hd : w.dict = d
  · rw [if_pos hd] at hf
    rcases mem_snd_setKey hf with h1 | h1
    · exact h1 ▸ hw
    · exact h d f h1
  · rw [if_neg hd] at hf
    exact h d f hf

theorem stGood_applyWrites {sn : String} {st : HP3PARCollector}
    {ws : List Write} (hws : ∀ w ∈ ws, GoodFam sn w.fam)
    (h : StGood sn st) : StGood sn (applyWrites st ws) := by
  induction ws generalizing st with
  | nil => exact h
  | cons w ws ih =>
      exact ih (fun w' hw' => hws w' (List.mem_cons_of_mem _ hw'))
        (stGood_applyWrite (hws w (List.mem_cons_self _ _)) h)

theorem oneSample_good (nm hl sn : String) (v : PyVal) :
    GoodFam sn (oneSample nm hl sn v) :=
  ⟨rfl, v, rfl⟩

theorem writesBlockDevice_good (sn cls : String) (inst : RawInstance)
    (ws : List Write) (h : writesBlockDevice sn cls inst = Except.ok ws) :
    ∀ w ∈ ws, GoodFam sn w.fam := by
  unfold writesBlockDevice at h
  split at h
  · cases hdev : inst.get "DeviceID" <;> rw [hdev] at h <;>
      simp only [Bind.bind, Except.bind] at h
    · exact absurd h (by simp)
    case ok dev =>
    cases hhs : inst.get "HealthState" <;> rw [hhs] at h <;>
      simp only [Bind.bind, Except.bind] at h
    · exact absurd h (by simp)
    case ok hs =>
    cases hos : inst.get "OperationalStatus" <;> rw [hos] at h <;>
      simp only [Bind.bind, Except.bind] at h
    · exact absurd h (by simp)
    case ok os =>
    cases hos0 : index0 os <;> rw [hos0] at h <;>
      simp only [Bind.bind, Except.bind] at h
    · exact absurd h (by simp)
    case ok os0 =>
    split at h
    · cases hrc : inst.get "RemainingCapacity" <;> rw [hrc] at h <;>
        simp only [Bind.bind, Except.bind] at h
      · exact absurd h (by simp)
      case ok rc =>
      cases hvo : inst.get "Voltage" <;> rw [hvo] at h <;>
        simp only [Bind.bind, Except.bind] at h
      · exact absurd h (by simp)
      case ok vo =>
      simp only [pure, Except.pure, Except.ok.injEq] at h
      subst h
      intro w hw
      rcases List.mem_append.mp hw with hw | hw
      · rcases List.mem_append.mp hw with hw | hw
        · rcases List.mem_cons.mp hw with rfl | hw
          · exact ⟨rfl, _, rfl⟩
          rcases List.mem_cons.mp hw with rfl | hw
          · exact ⟨rfl, _, rfl⟩
          · exact absurd hw (List.not_mem_nil _)
        · cases rc
          · exact absurd hw (List.not_mem_nil _)
          all_goals
            rcases List.mem_cons.mp hw with rfl | hw
            · exact ⟨rfl, _, rfl⟩
            · exact absurd hw (List.not_mem_nil _)
      · cases vo
        · exact absurd hw (List.not_mem_nil _)
        all_goals
          rcases List.mem_cons.mp hw with rfl | hw
          · exact ⟨rfl, _, rfl⟩
          · exact absurd hw (List.not_mem_nil _)
    · simp only [pure, Except.pure, Except.ok.injEq] at h
      subst h
      intro w hw
      rcases List.mem_cons.mp hw with rfl | hw
      · exact ⟨rfl, _, rfl⟩
      rcases List.mem_cons.mp hw with rfl | hw
      · exact ⟨rfl, _, rfl⟩
      · exact absurd hw (List.not_mem_nil _)
  · simp only [pure, Except.pure, Except.ok.injEq] at h
    subst h
    intro w hw
    exact absurd hw (List.not_mem_nil _)

theorem writesBlockElement_good (sn cls : String) (inst : RawInstance)
    (ws : List Write) (h : writesBlockElement sn cls inst = Except.ok ws) :
    ∀ w ∈ ws, GoodFam sn w.fam := by
  unfold writesBlockElement at h
  split at h
  · cases hel : inst.get "ElementName" <;> rw [hel] at h <;>
      simp only [Bind.bind, Except.bind] at h
    · exact absurd h (by simp)
    case ok el =>
    cases hhs : inst.get "HealthState" <;> rw [hhs] at h <;>
      simp only [Bind.bind, Except.bind] at h
    · exact absurd h (by simp)
    case ok hs =>
    cases hos : inst.get "OperationalStatus" <;> rw [hos] at h <;>
      simp only [Bind.bind, Except.bind] at h
    · exact absurd h (by simp)
    case ok os =>
    cases hos0 : index0 os <;> rw [hos0] at h <;>
      simp only [Bind.bind, Except.bind] at h
    · exact absurd h (by simp)
    case ok os0 =>
    split at h
    · cases hled : inst.get "SystemLED" <;> rw [hled] at h <;>
        simp only [Bind.bind, Except.bind] at h
      · exact absurd h (by simp)
      case ok led =>
      simp only [pure, Except.pure, Except.ok.injEq] at h
      subst h
      intro w hw
      rcases List.mem_append.mp hw with hw | hw
      · rcases List.mem_cons.mp hw with rfl | hw
        · exact ⟨rfl, _, rfl⟩
        rcases List.mem_cons.mp hw with rfl | hw
        · exact ⟨rfl, _, rfl⟩
        · exact absurd hw (List.not_mem_nil _)
      · rcases List.mem_cons.mp hw with rfl | hw
        · exact ⟨rfl, _, rfl⟩
        · exact absurd hw (List.not_mem_nil _)
    · split at h
      · cases hoo : inst.get "OtherOperationalStatus" <;> rw [hoo] at h <;>
          simp only [Bind.bind, Except.bind] at h
        · exact absurd h (by simp)
        case ok oo =>
        simp only [pure, Except.pure, Except.ok.injEq] at h
        subst h
        intro w hw
        rcases List.mem_append.mp hw with hw | hw
        · rcases List.mem_cons.mp hw with rfl | hw
          · exact ⟨rfl, _, rfl⟩
          rcases List.mem_cons.mp hw with rfl | hw
          · exact ⟨rfl, _, rfl⟩
          · exact absurd hw (List.not_mem_nil _)
        · rcases List.mem_cons.mp hw with rfl | hw
          · exact ⟨rfl, _, rfl⟩
          · exact absurd hw (List.not_mem_nil _)
      · simp only [pure, Except.pure, Except.ok.injEq] at h
        subst h
        intro w hw
        rcases List.mem_cons.mp hw with rfl | hw
        · exact ⟨rfl, _, rfl⟩
        rcases List.mem_cons.mp hw with rfl | hw
        · exact ⟨rfl, _, rfl⟩
        · exact absurd hw (List.not_mem_nil _)
  · simp only [pure, Except.pure, Except.ok.injEq] at h
    subst h
    intro w hw
    exact absurd hw (List.not_mem_nil _)

theorem writesBlockTag_good (sn cls : String) (inst : RawInstance)
    (ws : List Write) (h : writesBlockTag sn cls inst = Except.ok ws) :
    ∀ w ∈ ws, GoodFam sn w.fam := by
  unfold writesBlockTag at h
  split at h
  · cases htg : inst.get "Tag" <;> rw [htg] at h <;>
      simp only [Bind.bind, Except.bind] at h
    · exact absurd h (by simp)
    case ok tg =>
    cases hos : inst.get "OperationalStatus" <;> rw [hos] at h <;>
      simp only [Bind.bind, Except.bind] at h
    · exact absurd h (by simp)
    case ok os =>
    cases hos0 : index0 os <;> rw [hos0] at h <;>
      simp only [Bind.bind, Except.bind] at h
    · exact absurd h (by simp)
    case ok os0 =>
    simp only [pure, Except.pure, Except.ok.injEq] at h
    subst h
    intro w hw
    rcases List.mem_cons.mp hw with rfl | hw
    · exact ⟨rfl, _, rfl⟩
    · exact absurd hw (List.not_mem_nil _)
  · simp only [pure, Except.pure, Except.ok.injEq] at h
    subst h
    intro w hw
    exact absurd hw (List.not_mem_nil _)

theorem writesBlockSerial_good (sn cls : String) (inst : RawInstance)
    (ws : List Write) (h : writesBlockSerial sn cls inst = Except.ok ws) :
    ∀ w ∈ ws, GoodFam sn w.fam := by
  unfold writesBlockSerial at h
  split at h
  · cases hser : inst.get "SerialNumber" <;> rw [hser] at h <;>
      simp only [Bind.bind, Except.bind] at h
    · exact absurd h (by simp)
    case ok serial =>
    cases hos : inst.get "OperationalStatus" <;> rw [hos] at h <;>
      simp only [Bind.bind, Except.bind] at h
    · exact absurd h (by simp)
    case ok os =>
    cases hos0 : index0 os <;> rw [hos0] at h <;>
      simp only [Bind.bind, Except.bind] at h
    · exact absurd h (by simp)
    case ok os0 =>
    simp only [pure, Except.pure, Except.ok.injEq] at h
    subst h
    intro w hw
    rcases List.mem_cons.mp hw with rfl | hw
    · exact ⟨rfl, _, rfl⟩
    · exact absurd hw (List.not_mem_nil _)
  · simp only [pure, Except.pure, Except.ok.injEq] at h
    subst h
    intro w hw
    exact absurd hw (List.not_mem_nil _)

theorem instanceWrites_good (sn cls : String) (inst : RawInstance)
    (ws : List Write) (h : instanceWrites sn cls inst = Except.ok ws) :
    ∀ w ∈ ws, GoodFam sn w.fam := by
  unfold instanceWrites at h
  cases h1 : writesBlockDevice sn cls inst <;> rw [h1] at h <;>
    simp only [Bind.bind, Except.bind] at h
  · exact absurd h (by simp)
  case ok w1 =>
  cases h2 : writesBlockElement sn cls inst <;> rw [h2] at h <;>
    simp only [Bind.bind, Except.bind] at h
  · exact absurd h (by simp)
  case ok w2 =>
  cases h3 : writesBlockTag sn cls inst <;> rw [h3] at h <;>
    simp only [Bind.bind, Except.bind] at h
  · exact absurd h (by simp)
  case ok w3 =>
  cases h4 : writesBlockSerial sn cls inst <;> rw [h4] at h <;>
    simp only [Bind.bind, Except.bind] at h
  · exact absurd h (by simp)
  case ok w4 =>
  simp only [pure, Except.pure, Except.ok.injEq] at h
  subst h
  intro w hw
  rcases List.mem_append.mp hw with hw | hw
  · rcases List.mem_append.mp hw with hw | hw
    · rcases List.mem_append.mp hw with hw | hw
      · exact writesBlockDevice_good sn cls inst w1 h1 w hw
      · exact writesBlockElement_good sn cls inst w2 h2 w hw
    · exact writesBlockTag_good sn cls inst w3 h3 w hw
  · exact writesBlockSerial_good sn cls inst w4 h4 w hw

theorem mem_collectFamilies {st : HP3PARCollector} {f : GaugeMetricFamily} :
    f ∈ collectFamilies st ↔ ∃ d : DictId, f ∈ (dictOf st d).map Prod.snd := by
  constructor
  · intro hf
    simp only [collectFamilies, List.map_append, List.mem_append] at hf
    rcases hf with ((((h | h) | h) | h) | h) | h
    · exact ⟨DictId.health, h⟩
    · exact ⟨DictId.oper, h⟩
    · exact ⟨DictId.other_oper, h⟩
    · exact ⟨DictId.led, h⟩
    · exact ⟨DictId.battery, h⟩
    · exact ⟨DictId.overprv, h⟩
  · rintro ⟨d, hd⟩
    simp only [collectFamilies, List.map_append, List.mem_append]
    cases d
    · exact Or.inl (Or.inl (Or.inl (Or.inl (Or.inl hd))))
    · exact Or.inl (Or.inl (Or.inl (Or.inl (Or.inr hd))))
    · exact Or.inl (Or.inl (Or.inl (Or.inr hd)))
    · exact Or.inl (Or.inl (Or.inr hd))
    · exact Or.inl (Or.inr hd)
    · exact Or.inr hd

theorem except_bind_ok {α β : Type} {x : Except String α}
    {f : α → Except String β} {b : β} (h : (x >>= f) = Except.ok b) :
    ∃ a, x = Except.ok a ∧ f a = Except.ok b := by
  cases x with
  | error e => simp [Bind.bind, Except.bind] at h
  | ok a => exact ⟨a, rfl, by simpa [Bind.bind, Except.bind] using h⟩

theorem except_pure_ok {α : Type} {a b : α}
    (h : (pure a : Except String α) = Except.ok b) : a = b := by
  simpa [pure, Except.pure] using h

/-- Accumulating folds of the collection loops preserve a property of
the accumulated writes, provided each step does. -/
theorem foldlM_writes_good {α : Type} (P : Write → Prop)
    (f : List Write → α → Except String (List Write))
    (hf : ∀ acc x ws, f acc x = Except.ok ws → (∀ w ∈ acc, P w) → ∀ w ∈ ws, P w) :
    ∀ (l : List α) (init ws : List Write), l.foldlM f init = Except.ok ws →
      (∀ w ∈ init, P w) → ∀ w ∈ ws, P w := by
  intro l
  induction l with
  | nil =>
      intro init ws h hinit
      have := except_pure_ok h
      exact this ▸ hinit
  | cons x xs ih =>
      intro init ws h hinit
      rw [List.foldlM_cons] at h
      obtain ⟨acc, hx, hrest⟩ := except_bind_ok h
      exact ih acc ws hrest (hf init x acc hx hinit)

theorem statusWrites_good (sn : String) (qry : String → List RawInstance)
    (ws : List Write) (h : statusWrites sn qry = Except.ok ws) :
    ∀ w ∈ ws, GoodFam sn w.fam := by
  refine foldlM_writes_good (fun w => GoodFam sn w.fam) _ ?_ list_CIM_classes [] ws h
    (by intro w hw; exact absurd hw (List.not_mem_nil _))
  intro acc cls ws2 hcls hacc
  unfold classWrites at hcls
  refine foldlM_writes_good (fun w => GoodFam sn w.fam) _ ?_ (qry cls) acc ws2 hcls hacc
  intro acc2 inst ws3 hinst hacc2
  obtain ⟨new, hnew, hpure⟩ := except_bind_ok hinst
  have := except_pure_ok hpure
  subst this
  intro w hw
  rcases List.mem_append.mp hw with hw | hw
  · exact hacc2 w hw
  · exact instanceWrites_good sn cls inst new hnew w hw

theorem cpgWrite_good (sn : String) (ssh : String → String) (nm : String)
    (w : Write) (h : cpgWrite sn ssh nm = Except.ok w) : GoodFam sn w.fam := by
  unfold cpgWrite at h
  dsimp only at h
  split at h
  · exact absurd h (by simp)
  · split at h
    · exact absurd h (by simp)
    · have := Except.ok.inj h
      subst this
      exact ⟨rfl, _, rfl⟩

theorem overprvWrites_good (sn : String) (qry : String → List RawInstance)
    (ssh : String → String) (ws : List Write)
    (h : overprvWrites sn qry ssh = Except.ok ws) :
    ∀ w ∈ ws, GoodFam sn w.fam := by
  refine foldlM_writes_good (fun w => GoodFam sn w.fam) _ ?_
    (qry "TPD_DynamicStoragePool") [] ws h
    (by intro w hw; exact absurd hw (List.not_mem_nil _))
  intro acc cpg ws2 hcpg hacc
  obtain ⟨nmv, hnm, hcpg⟩ := except_bind_ok hcpg
  obtain ⟨w1, hw1, hpure⟩ := except_bind_ok hcpg
  have := except_pure_ok hpure
  subst this
  intro w hw
  rcases List.mem_append.mp hw with hw | hw
  · exact hacc w hw
  · rcases List.mem_cons.mp hw with rfl | hw
    · exact cpgWrite_good sn ssh (pyStr nmv) w hw1
    · exact absurd hw (List.not_mem_nil _)

theorem applyWrites_append (st : HP3PARCollector) (a b : List Write) :
    applyWrites st (a ++ b) = applyWrites (applyWrites st a) b :=
  List.foldl_append _ _ _ _

/-- Inversion of a successful `_update_metrics` run: both connections
succeeded, both write computations succeeded, and the new state is the
old state with the full write sequence applied. -/
theorem hp_update_metrics_spec (env : Env) (st st' : HP3PARCollector)
    (h : hp_update_metrics env st = Except.ok st') :
    env.wbemConnectOk = true ∧ env.sshConnectOk = true ∧
    ∃ ws wo, statusWrites st.storage_name env.wbemData = Except.ok ws ∧
      overprvWrites st.storage_name env.wbemData env.sshExec = Except.ok wo ∧
      st' = applyWrites st (ws ++ wo) := by
  unfold hp_update_metrics at h
  obtain ⟨u, hconn, h⟩ := except_bind_ok h
  obtain ⟨st1, hstatus, h⟩ := except_bind_ok h
  have hwb : env.wbemConnectOk = true := by
    by_contra hc
    simp [hp_wbem_connect, hc] at hconn
  unfold hp_get_status_resources at hstatus
  cases hsw : statusWrites st.storage_name env.wbemData with
  | error e => rw [hsw] at hstatus; exact absurd hstatus (by simp)
  | ok ws =>
      rw [hsw] at hstatus
      have hst1 : st1 = applyWrites st ws := (Except.ok.inj hstatus).symm
      unfold hp_get_overprovisioning at h
      obtain ⟨u2, hssh, h⟩ := except_bind_ok h
      have hsshOk : env.sshConnectOk = true := by
        by_contra hc
        simp [hp_ssh_connect, hc] at hssh
      have hsn : st1.storage_name = st.storage_name := by
        rw [hst1]; exact storage_name_applyWrites _ _
      cases how : overprvWrites st.storage_name env.wbemData env.sshExec with
      | error e =>
          rw [hsn, how] at h
          exact absurd h (by simp)
      | ok wo =>
          rw [hsn, how] at h
          have hst' : st' = applyWrites st1 wo := (Except.ok.inj h).symm
          exact ⟨hwb, hsshOk, ws, wo, rfl, rfl, by
            rw [hst', hst1, applyWrites_append]⟩

theorem collect_ok_spec (env : Env) (st : HP3PARCollector)
    (fams : List GaugeMetricFamily) (stf : HP3PARCollector)
    (h : collect env st = Except.ok (fams, stf)) :
    fams = collectFamilies stf ∧ hp_update_metrics env st = Except.ok stf := by
  unfold collect at h
  cases hu : hp_update_metrics env st with
  | error e => rw [hu] at h; exact absurd h (by simp [Except.map])
  | ok s =>
      rw [hu] at h
      simp only [Except.map] at h
      have hp := Except.ok.inj h
      have hf : collectFamilies s = fams := congrArg Prod.fst hp
      have hs : s = stf := congrArg Prod.snd hp
      constructor
      · rw [← hf, hs]
      · rw [hs]

theorem sampleIn_iff_lookup {st : HP3PARCollector} (hnd : StNodup st)
    (n : String) (lv : List String) (v : PyVal) :
    SampleIn (collectFamilies st) n lv v ↔
      ∃ d k f, (dictOf st d).lookup k = some f ∧ f.name = n ∧ (lv, v) ∈ f.samples := by
  constructor
  · rintro ⟨f, hf, hn, hs⟩
    obtain ⟨d, hd⟩ := mem_collectFamilies.mp hf
    obtain ⟨⟨k0, f0⟩, hp, hpf⟩ := List.mem_map.mp hd
    cases hpf
    exact ⟨d, k0, f0, lookup_eq_some_of_mem (hnd d) hp, hn, hs⟩
  · rintro ⟨d, k, f, hlk, hn, hs⟩
    exact ⟨f, mem_collectFamilies.mpr
      ⟨d, List.mem_map.mpr ⟨(k, f), mem_of_lookup_eq_some hlk, rfl⟩⟩, hn, hs⟩

theorem classWrites_nil (sn : String) (qry : String → List RawInstance)
    (acc : List Write) (cls : String) (h : qry cls = []) :
    classWrites sn qry acc cls = Except.ok acc := by
  unfold classWrites
  rw [h]
  rfl

theorem classWrites_single_error (sn : String) (qry : String → List RawInstance)
    (acc : List Write) (cls : String) (inst : RawInstance) (e : String)
    (h : qry cls = [inst]) (he : instanceWrites sn cls inst = Except.error e) :
    classWrites sn qry acc cls = Except.error e := by
  unfold classWrites
  rw [h, List.foldlM_cons]
  simp only [Bind.bind, Except.bind, he]

theorem instanceWrites_opstatus_err (sn : String) (inst : RawInstance)
    (h : inst.props.lookup "OperationalStatus" = none) :
    ∃ e, instanceWrites sn "TPD_Fan" inst = Except.error e := by
  have hget : inst.get "OperationalStatus" = Except.error "KeyError" := by
    unfold RawInstance.get
    rw [h]
  unfold instanceWrites writesBlockDevice
  cases hdev : inst.get "DeviceID" with
  | error e => exact ⟨e, by simp [Bind.bind, Except.bind, hdev]⟩
  | ok dev =>
      cases hhs : inst.get "HealthState" with
      | error e => exact ⟨e, by simp [Bind.bind, Except.bind, hdev, hhs]⟩
      | ok hs => exact ⟨"KeyError", by simp [Bind.bind, Except.bind, hdev, hhs, hget]⟩

theorem statusWrites_envFanOnly_error (sn : String) (inst : RawInstance)
    (e : String) (hErr : instanceWrites sn "TPD_Fan" inst = Except.error e) :
    statusWrites sn (envFanOnly inst).wbemData = Except.error e := by
  have hnil : ∀ cls : String, ¬cls = "TPD_Fan" →
      (envFanOnly inst).wbemData cls = [] := by
    intro cls hc
    simp [envFanOnly, hc]
  have hfan : (envFanOnly inst).wbemData "TPD_Fan" = [inst] := by
    simp [envFanOnly]
  unfold statusWrites list_CIM_classes
  simp only [List.foldlM_cons, List.foldlM_nil]
  rw [classWrites_nil _ _ _ _ (hnil _ (by decide))]
  simp only [Bind.bind, Except.bind]
  rw [classWrites_nil _ _ _ _ (hnil _ (by decide))]
  simp only [Bind.bind, Except.bind]
  rw [classWrites_nil _ _ _ _ (hnil _ (by decide))]
  simp only [Bind.bind, Except.bind]
  rw [classWrites_nil _ _ _ _ (hnil _ (by decide))]
  simp only [Bind.bind, Except.bind]
  rw [classWrites_nil _ _ _ _ (hnil _ (by decide))]
  simp only [Bind.bind, Except.bind]
  rw [classWrites_nil _ _ _ _ (hnil _ (by decide))]
  simp only [Bind.bind, Except.bind]
  rw [classWrites_nil _ _ _ _ (hnil _ (by decide))]
  simp only [Bind.bind, Except.bind]
  rw [classWrites_single_error _ _ _ _ inst e hfan hErr]

theorem pyFloat_42_5 : pyFloat? "42.5" = some (85 / 2) := by
  have h : pyFloat? "42.5" =
      some ((1 : ℚ) * ((digitsVal ['4', '2'] : ℚ) +
        (digitsVal ['5'] : ℚ) / (10 : ℚ) ^ (1 : ℕ))) := rfl
  rw [h, show digitsVal ['4', '2'] = 42 from rfl, show digitsVal ['5'] = 5 from rfl]
  norm_num

theorem pyFloat_2_5 : pyFloat? "2.5" = some (5 / 2) := by
  have h : pyFloat? "2.5" =
      some ((1 : ℚ) * ((digitsVal ['2'] : ℚ) +
        (digitsVal ['5'] : ℚ) / (10 : ℚ) ^ (1 : ℕ))) := rfl
  rw [h, show digitsVal ['2'] = 2 from rfl, show digitsVal ['5'] = 5 from rfl]
  norm_num

theorem sanitizeChar_target (c : Char) :
    (!(sanitizeChar c == '.') && !(sanitizeChar c == '[') &&
     !(sanitizeChar c == ']') && !(sanitizeChar c == '-')) = true := by
  unfold sanitizeChar
  by_cases h : c = '.' ∨ c = '[' ∨ c = ']' ∨ c = '-'
  · rw [if_pos h]
    decide
  · rw [if_neg h]
    push_neg at h
    obtain ⟨h1, h2, h3, h4⟩ := h
    rw [beq_eq_false_iff_ne.mpr h1, beq_eq_false_iff_ne.mpr h2,
      beq_eq_false_iff_ne.mpr h3, beq_eq_false_iff_ne.mpr h4]
    rfl

/- ------------------------------------------------------------------ -/
/- The claims.                                                         -/
/- ------------------------------------------------------------------ -/

/-- C1 (amended): a failure to establish either channel does not leave
the scrape empty with the process alive — it terminates the process.
`hp_wbem_connect`/`hp_ssh_connect` call `sys.exit("1000")` (modelled as
`Except.error "1000"`), so `collect` ends the process instead of
returning zero samples. -/
theorem connect_failure_exits_process (env : Env) (st : HP3PARCollector)
    (ws : List Write) :
    (env.wbemConnectOk = false → collect env st = Except.error "1000") ∧
    (env.wbemConnectOk = true → env.sshConnectOk = false →
      statusWrites st.storage_name env.wbemData = Except.ok ws →
      collect env st = Except.error "1000") := by
  constructor
  · intro hc
    unfold collect hp_update_metrics hp_wbem_connect
    rw [hc]
    rfl
  · intro hwb hsc hsw
    unfold collect hp_update_metrics hp_wbem_connect hp_get_status_resources
      hp_get_overprovisioning hp_ssh_connect
    rw [hwb, hsc]
    simp only [Bind.bind, Except.bind, Except.map, if_true, if_false, hsw,
      Bool.false_eq_true]

/-- C1 counterexample: with a failing WBEM connection (and likewise with
a failing SSH connection) the serving process exits with status "1000";
the scrape does not return zero samples with the process kept alive. -/
theorem connect_failure_exits_process_cex :
    collect envNoWbem (initCollector "s") = Except.error "1000" ∧
    collect envNoSsh (initCollector "s") = Except.error "1000" :=
  ⟨rfl, rfl⟩

/-- C2 (amended): when two RawInstances yield the same metric key, the
dictionary assignment replaces the earlier family: exactly one sample is
kept and it is the second one recorded (last write wins), for any pair
of values. -/
theorem duplicate_key_last_write_wins (v1 v2 : ℚ) :
    hp_update_metrics (envDupFan v1 v2) (initCollector "s") =
      Except.ok
        { storage_name := "s",
          health_metrics :=
            [("health_Fan_0",
              oneSample "health_Fan_0" "Health State of TPD_Fan" "s" (PyVal.num v2))],
          oper_metrics :=
            [("oper_Fan_0",
              oneSample "oper_Fan_0" "Operational State of TPD_Fan" "s" (PyVal.num v2))],
          other_oper_metrics := [], led_metrics := [], battery_metrics := [],
          overprv_metrics := [] } := rfl

/-- C2 counterexample: two fan instances share every metric key with
health values 1 then 2; the registry keeps the sample with value 2 (the
second write), not value 1 (the first) — the first write is overwritten,
not preserved. -/
theorem duplicate_key_last_write_wins_cex :
    (hp_update_metrics (envDupFan 1 2) (initCollector "s")).map
        (fun stf => stf.health_metrics.lookup "health_Fan_0") =
      Except.ok (some
        (oneSample "health_Fan_0" "Health State of TPD_Fan" "s" (PyVal.num 2))) ∧
    (PyVal.num 2 = PyVal.num 1 → False) :=
  ⟨rfl, fun h => by
    have := PyVal.num.inj h
    norm_num at this⟩

/-- C3 (amended): every emitted metric name embeds the sanitised
ResourceIdentifier in the name itself; the ResourceIdentifier is never a
label value (the only label is `storage_name`).  The health and oper
families of a class are named `{kind}_{class-without-tag}_{identifier}`,
while the battery capacity and voltage families are named
`battery_capacity_{identifier}` and `battery_voltage_{identifier}` (no
class tag, and `battery` — not the kind — comes first).  Metric names
are therefore per-resource, not bounded by the class. -/
theorem metric_names_embed_identifier (sn : String)
    (fan bat : RawInstance) (fdev fhs fos fos0 bdev bhs bos bos0 : PyVal)
    (rc vo : ℚ)
    (hfdev : fan.get "DeviceID" = Except.ok fdev)
    (hfhs : fan.get "HealthState" = Except.ok fhs)
    (hfos : fan.get "OperationalStatus" = Except.ok fos)
    (hfos0 : index0 fos = Except.ok fos0)
    (hbdev : bat.get "DeviceID" = Except.ok bdev)
    (hbhs : bat.get "HealthState" = Except.ok bhs)
    (hbos : bat.get "OperationalStatus" = Except.ok bos)
    (hbos0 : index0 bos = Except.ok bos0)
    (hrc : bat.get "RemainingCapacity" = Except.ok (PyVal.num rc))
    (hvo : bat.get "Voltage" = Except.ok (PyVal.num vo)) :
    instanceWrites sn "TPD_Fan" fan =
      Except.ok
        [Write.mk DictId.health (sanitize ("health_Fan_" ++ pyStr fdev))
          (oneSample (sanitize ("health_Fan_" ++ pyStr fdev))
            "Health State of TPD_Fan" sn fhs),
         Write.mk DictId.oper (sanitize ("oper_Fan_" ++ pyStr fdev))
          (oneSample (sanitize ("oper_Fan_" ++ pyStr fdev))
            "Operational State of TPD_Fan" sn fos0)] ∧
    instanceWrites sn "TPD_Battery" bat =
      Except.ok
        [Write.mk DictId.health (sanitize ("health_Battery_" ++ pyStr bdev))
          (oneSample (sanitize ("health_Battery_" ++ pyStr bdev))
            "Health State of TPD_Battery" sn bhs),
         Write.mk DictId.oper (sanitize ("oper_Battery_" ++ pyStr bdev))
          (oneSample (sanitize ("oper_Battery_" ++ pyStr bdev))
            "Operational State of TPD_Battery" sn bos0),
         Write.mk DictId.battery (sanitize ("battery_capacity_" ++ pyStr bdev))
          (oneSample (sanitize ("battery_capacity_" ++ pyStr bdev))
            "Remaining Capacity of Battery" sn (PyVal.num rc)),
         Write.mk DictId.battery (sanitize ("battery_voltage_" ++ pyStr bdev))
          (oneSample (sanitize ("battery_voltage_" ++ pyStr bdev))
            "Voltage of Battery" sn (PyVal.num vo))] := by
  constructor
  · unfold instanceWrites writesBlockDevice writesBlockElement writesBlockTag
      writesBlockSerial
    rw [hfdev, hfhs, hfos]
    simp only [Bind.bind, Except.bind, hfos0]
    rfl
  · unfold instanceWrites writesBlockDevice writesBlockElement writesBlockTag
      writesBlockSerial
    rw [hbdev, hbhs, hbos]
    simp only [Bind.bind, Except.bind, hbos0, hrc, hvo]
    rfl

/-- C3 witness: the fan with `DeviceID "1.2"` produces the writes named
`health_Fan_1_2` and `oper_Fan_1_2`; the battery with `DeviceID "B.1"`
produces `health_Battery_B_1`, `oper_Battery_B_1`,
`battery_capacity_B_1` and `battery_voltage_B_1`. -/
theorem metric_names_embed_identifier_witness :
    instanceWrites "s" "TPD_Fan" fanInstOk =
      Except.ok
        [Write.mk DictId.health (sanitize ("health_Fan_" ++ pyStr (PyVal.str "1.2")))
          (oneSample (sanitize ("health_Fan_" ++ pyStr (PyVal.str "1.2")))
            "Health State of TPD_Fan" "s" (PyVal.num 2)),
         Write.mk DictId.oper (sanitize ("oper_Fan_" ++ pyStr (PyVal.str "1.2")))
          (oneSample (sanitize ("oper_Fan_" ++ pyStr (PyVal.str "1.2")))
            "Operational State of TPD_Fan" "s" (PyVal.num 2))] ∧
    instanceWrites "s" "TPD_Battery" batInstOk =
      Except.ok
        [Write.mk DictId.health (sanitize ("health_Battery_" ++ pyStr (PyVal.str "B.1")))
          (oneSample (sanitize ("health_Battery_" ++ pyStr (PyVal.str "B.1")))
            "Health State of TPD_Battery" "s" (PyVal.num 2)),
         Write.mk DictId.oper (sanitize ("oper_Battery_" ++ pyStr (PyVal.str "B.1")))
          (oneSample (sanitize ("oper_Battery_" ++ pyStr (PyVal.str "B.1")))
            "Operational State of TPD_Battery" "s" (PyVal.num 2)),
         Write.mk DictId.battery (sanitize ("battery_capacity_" ++ pyStr (PyVal.str "B.1")))
          (oneSample (sanitize ("battery_capacity_" ++ pyStr (PyVal.str "B.1")))
            "Remaining Capacity of Battery" "s" (PyVal.num 85)),
         Write.mk DictId.battery (sanitize ("battery_voltage_" ++ pyStr (PyVal.str "B.1")))
          (oneSample (sanitize ("battery_voltage_" ++ pyStr (PyVal.str "B.1")))
            "Voltage of Battery" "s" (PyVal.num 12))] :=
  metric_names_embed_identifier "s" fanInstOk batInstOk (PyVal.str "1.2")
    (PyVal.num 2) (PyVal.arr [PyVal.num 2]) (PyVal.num 2) (PyVal.str "B.1")
    (PyVal.num 2) (PyVal.arr [PyVal.num 2]) (PyVal.num 2) 85 12
    rfl rfl rfl rfl rfl rfl rfl rfl rfl rfl

/-- C3 counterexample: with `DeviceID "7"` the health family is named
`health_Fan_7` — the identifier `7` occurs inside the metric name and
the name is not the class-determined `Fan_health` the claim prescribes;
and for the battery with `DeviceID "B.1"` the capacity family is named
`battery_capacity_B_1`, not `Battery_capacity`. -/
theorem metric_names_embed_identifier_cex :
    hp_update_metrics (envFanOnly fanInstSeven) (initCollector "s") =
      Except.ok
        { storage_name := "s",
          health_metrics :=
            [("health_Fan_7",
              oneSample "health_Fan_7" "Health State of TPD_Fan" "s" (PyVal.num 1))],
          oper_metrics :=
            [("oper_Fan_7",
              oneSample "oper_Fan_7" "Operational State of TPD_Fan" "s" (PyVal.num 2))],
          other_oper_metrics := [], led_metrics := [], battery_metrics := [],
          overprv_metrics := [] } ∧
    ('7' ∈ "health_Fan_7".toList) ∧
    ("health_Fan_7" = "Fan_health" → False) ∧
    sanitize ("battery_capacity_" ++ pyStr (PyVal.str "B.1")) = "battery_capacity_B_1" ∧
    ("battery_capacity_B_1" = "Battery_capacity" → False) :=
  ⟨rfl, by decide, by decide, rfl, by decide⟩

/-- C4 (amended): there is no "invalid"-marker check and no per-pool
skip: when a pool's command output fails the expected shape (missing 4th
line, or a last token `float()` rejects), the raised exception is caught
by the handler that calls `sys.exit("1000")` — the remaining pools are
abandoned and the resource metrics already collected are discarded with
the process; `collect` yields nothing. -/
theorem overprov_malformed_output_exits (env : Env) (st : HP3PARCollector)
    (ws : List Write) (cpg : RawInstance) (nm e : String)
    (hwb : env.wbemConnectOk = true)
    (hstatus : statusWrites st.storage_name env.wbemData = Except.ok ws)
    (hssh : env.sshConnectOk = true)
    (hpool : env.wbemData "TPD_DynamicStoragePool" = [cpg])
    (hnm : cpg.get "ElementName" = Except.ok (PyVal.str nm))
    (hfail : cpgWrite st.storage_name env.sshExec nm = Except.error e) :
    collect env st = Except.error "1000" := by
  have hov : overprvWrites st.storage_name env.wbemData env.sshExec =
      Except.error e := by
    unfold overprvWrites
    rw [hpool, List.foldlM_cons]
    simp only [Bind.bind, Except.bind, hnm, pyStr, hfail]
  unfold collect hp_update_metrics hp_wbem_connect hp_get_status_resources
    hp_get_overprovisioning hp_ssh_connect
  rw [hwb, hssh]
  simp only [Bind.bind, Except.bind, Except.map, hstatus, if_true]
  rw [storage_name_applyWrites, hov]

/-- C4 witness: one healthy fan plus one pool whose output is
`"h\nh\nh\nInvalid\n"`: the scrape exits with status "1000" even though
the resource sweep had succeeded. -/
theorem overprov_malformed_output_exits_witness :
    collect (envFanAndPool "h\nh\nh\nInvalid\n") (initCollector "s") =
      Except.error "1000" :=
  overprov_malformed_output_exits (envFanAndPool "h\nh\nh\nInvalid\n")
    (initCollector "s")
    [Write.mk DictId.health "health_DynamicStoragePool_cpg0"
      (oneSample "health_DynamicStoragePool_cpg0"
        "Health State of TPD_DynamicStoragePool" "s" (PyVal.num 5)),
     Write.mk DictId.oper "oper_DynamicStoragePool_cpg0"
      (oneSample "oper_DynamicStoragePool_cpg0"
        "Operational State of TPD_DynamicStoragePool" "s" (PyVal.num 2)),
     Write.mk DictId.health "health_Fan_1_2"
      (oneSample "health_Fan_1_2" "Health State of TPD_Fan" "s" (PyVal.num 2)),
     Write.mk DictId.oper "oper_Fan_1_2"
      (oneSample "oper_Fan_1_2" "Operational State of TPD_Fan" "s" (PyVal.num 2))]
    cpgPoolFull "cpg0" "ValueError" rfl rfl rfl rfl rfl rfl

/-- C4 counterexample: output containing the marker `Invalid` is not
skipped with a warning — `float("Invalid")` raises and the process exits
with "1000"; the fan metrics collected moments earlier are never
emitted. -/
theorem overprov_malformed_output_exits_cex :
    collect (envFanAndPool "h\nh\nh\nInvalid\n") (initCollector "s") =
      Except.error "1000" ∧
    pyFloat? "Invalid" = none :=
  ⟨rfl, rfl⟩

/-- C5 (amended): `OperationalStatus` is accessed unconditionally
(`instance["OperationalStatus"][0]`): for a fan instance lacking it no
sample is quietly skipped — the lookup raises, the sweep's handler calls
`sys.exit("1100")`, and the scrape produces nothing at all. -/
theorem missing_opstatus_exits (sn : String) (st : HP3PARCollector)
    (inst : RawInstance)
    (h : inst.props.lookup "OperationalStatus" = none) :
    (∃ e, instanceWrites sn "TPD_Fan" inst = Except.error e) ∧
      collect (envFanOnly inst) st = Except.error "1100" := by
  refine ⟨instanceWrites_opstatus_err sn inst h, ?_⟩
  obtain ⟨e, he⟩ := instanceWrites_opstatus_err st.storage_name inst h
  unfold collect hp_update_metrics hp_wbem_connect hp_get_status_resources
  simp only [Bind.bind, Except.bind, Except.map]
  rw [show (envFanOnly inst).wbemConnectOk = true from rfl]
  simp only [if_true]
  rw [statusWrites_envFanOnly_error st.storage_name inst e he]

/-- C5 witness: the spec's scenario instance
`{DeviceID: "1.2", HealthState: 2}` (no `OperationalStatus`): an
exception is raised and the scrape exits with "1100". -/
theorem missing_opstatus_exits_witness :
    (∃ e, instanceWrites "s" "TPD_Fan" fanInstNoOper = Except.error e) ∧
      collect (envFanOnly fanInstNoOper) (initCollector "s") =
        Except.error "1100" :=
  missing_opstatus_exits "s" (initCollector "s") fanInstNoOper rfl

/-- C5 counterexample: the spec's scenario instance yields no
`health_Fan_1_2` sample and no quiet skip of the missing status — the
whole collection exits with "1100". -/
theorem missing_opstatus_exits_cex :
    collect (envFanOnly fanInstNoOper) (initCollector "s") =
      Except.error "1100" := rfl

/-- C6 (amended): the identifier is read from a single class-determined
field (for fans, `DeviceID`); there is no fallback chain and no
sentinel: a record with no identifying field raises `KeyError` and the
sweep exits the process with "1100". -/
theorem no_identifying_field_exits (sn : String) (st : HP3PARCollector) :
    instanceWrites sn "TPD_Fan" instNoFields = Except.error "KeyError" ∧
      collect (envFanOnly instNoFields) st = Except.error "1100" :=
  ⟨rfl, rfl⟩

/-- C6 counterexample: the record with no properties produces no
sentinel identifier — the scrape exits with status "1100". -/
theorem no_identifying_field_exits_cex :
    instanceWrites "s" "TPD_Fan" instNoFields = Except.error "KeyError" ∧
      collect (envFanOnly instNoFields) (initCollector "s") =
        Except.error "1100" :=
  ⟨rfl, rfl⟩

/-- C7 (amended): the sanitisation chain replaces each occurrence of
`.`, `[`, `]` and `-` by `_` (it is the character map `sanitizeChar`),
so those four characters never survive; space is not among the replaced
characters. -/
theorem sanitize_replaces_dot_brackets_hyphen (s : String) :
    (sanitize s).toList = s.toList.map sanitizeChar ∧
    ((sanitize s).toList.all fun c =>
      !(c == '.') && !(c == '[') && !(c == ']') && !(c == '-')) = true := by
  refine ⟨rfl, ?_⟩
  rw [show (sanitize s).toList = s.toList.map sanitizeChar from rfl, List.all_map]
  rw [List.all_eq_true]
  intro c _
  exact sanitizeChar_target c

/-- C7 counterexample: a `DeviceID` containing a space keeps the space
in the normalized key: `health_Fan_a b` — the claim's list of replaced
characters wrongly includes space. -/
theorem sanitize_keeps_space_cex :
    instanceWrites "s" "TPD_Fan" fanInstSpace =
      Except.ok
        [Write.mk DictId.health "health_Fan_a b"
          (oneSample "health_Fan_a b" "Health State of TPD_Fan" "s" (PyVal.num 1)),
         Write.mk DictId.oper "oper_Fan_a b"
          (oneSample "oper_Fan_a b" "Operational State of TPD_Fan" "s" (PyVal.num 2))] ∧
    (' ' ∈ "health_Fan_a b".toList) ∧
    sanitize "a b" = "a b" :=
  ⟨rfl, by decide, rfl⟩

/-- C8 (amended): the parsed token is the last piece of line index 3
split on single spaces (`split(' ')`, not arbitrary whitespace); when it
parses as a float the value is recorded for the pool under
`overprv_DynamicStoragePool_<pool>`; otherwise the exception aborts the
whole sub-collection (see C4). -/
theorem overprov_records_space_token_value (env : Env) (st : HP3PARCollector)
    (cpg : RawInstance) (nm out line3 : String) (q : ℚ)
    (hssh : env.sshConnectOk = true)
    (hpool : env.wbemData "TPD_DynamicStoragePool" = [cpg])
    (hnm : cpg.get "ElementName" = Except.ok (PyVal.str nm))
    (hout : env.sshExec ("showspace -cpg " ++ nm) = out)
    (hline : (pySplitChar (Char.ofNat 10) out)[3]? = some line3)
    (hq : pyFloat? ((pySplitChar ' ' line3).getLastD "") = some q) :
    ∃ stf, hp_get_overprovisioning env st = Except.ok stf ∧
      stf.overprv_metrics.lookup (sanitize ("overprv_DynamicStoragePool_" ++ nm)) =
        some (oneSample (sanitize ("overprv_DynamicStoragePool_" ++ nm))
          ("Overprovisioning of " ++ nm) st.storage_name (PyVal.num q)) := by
  have hw : cpgWrite st.storage_name env.sshExec nm =
      Except.ok (Write.mk DictId.overprv
        (sanitize ("overprv_DynamicStoragePool_" ++ nm))
        (oneSample (sanitize ("overprv_DynamicStoragePool_" ++ nm))
          ("Overprovisioning of " ++ nm) st.storage_name (PyVal.num q))) := by
    unfold cpgWrite
    rw [hout]
    dsimp only
    rw [hline]
    dsimp only
    rw [hq]
  have hov : overprvWrites st.storage_name env.wbemData env.sshExec =
      Except.ok [Write.mk DictId.overprv
        (sanitize ("overprv_DynamicStoragePool_" ++ nm))
        (oneSample (sanitize ("overprv_DynamicStoragePool_" ++ nm))
          ("Overprovisioning of " ++ nm) st.storage_name (PyVal.num q))] := by
    unfold overprvWrites
    rw [hpool, List.foldlM_cons]
    simp only [Bind.bind, Except.bind, hnm, pyStr, hw, List.foldlM_nil, pure,
      Except.pure, List.nil_append]
  refine ⟨applyWrites st [Write.mk DictId.overprv
      (sanitize ("overprv_DynamicStoragePool_" ++ nm))
      (oneSample (sanitize ("overprv_DynamicStoragePool_" ++ nm))
        ("Overprovisioning of " ++ nm) st.storage_name (PyVal.num q))], ?_, ?_⟩
  · unfold hp_get_overprovisioning hp_ssh_connect
    rw [hssh]
    simp only [Bind.bind, Except.bind, if_true]
    rw [hov]
  · have hst : (applyWrites st [Write.mk DictId.overprv
        (sanitize ("overprv_DynamicStoragePool_" ++ nm))
        (oneSample (sanitize ("overprv_DynamicStoragePool_" ++ nm))
          ("Overprovisioning of " ++ nm) st.storage_name (PyVal.num q))]).overprv_metrics =
        setKey st.overprv_metrics (sanitize ("overprv_DynamicStoragePool_" ++ nm))
          (oneSample (sanitize ("overprv_DynamicStoragePool_" ++ nm))
            ("Overprovisioning of " ++ nm) st.storage_name (PyVal.num q)) := rfl
    rw [hst, lookup_setKey, if_pos rfl]

/-- C8 witness: the spec's scenario output
`"hdr\nhdr\nhdr\ncpg used 42.5\n"` records 42.5 for pool `cpg0`. -/
theorem overprov_records_space_token_value_witness :
    ∃ stf, hp_get_overprovisioning (envPool "hdr\nhdr\nhdr\ncpg used 42.5\n")
        (initCollector "s") = Except.ok stf ∧
      stf.overprv_metrics.lookup (sanitize ("overprv_DynamicStoragePool_" ++ "cpg0")) =
        some (oneSample (sanitize ("overprv_DynamicStoragePool_" ++ "cpg0"))
          ("Overprovisioning of " ++ "cpg0") (initCollector "s").storage_name
          (PyVal.num (85 / 2))) :=
  overprov_records_space_token_value (envPool "hdr\nhdr\nhdr\ncpg used 42.5\n")
    (initCollector "s") cpgPoolFull "cpg0" "hdr\nhdr\nhdr\ncpg used 42.5\n"
    "cpg used 42.5" (85 / 2) rfl rfl rfl rfl rfl
    (by rw [show (pySplitChar ' ' "cpg used 42.5").getLastD "" = "42.5" from rfl]
        exact pyFloat_42_5)

/-- C8 counterexample: on the line `x 1.5\t2.5` the last
whitespace-separated token is `2.5` (a number), but the code's
`split(' ')` yields `1.5\t2.5`, `float` rejects it and the process exits
with "1000": no value is recorded for the pool at all, refuting the
"last whitespace-separated token" reading. -/
theorem overprov_whitespace_token_cex :
    specLastWhitespaceToken "x 1.5\t2.5" = "2.5" ∧
    pyFloat? "2.5" = some (5 / 2) ∧
    collect (envFanAndPool "h\nh\nh\nx 1.5\t2.5\n") (initCollector "s") =
      Except.error "1000" :=
  ⟨rfl, pyFloat_2_5, rfl⟩

/-- C9: running the full collection pass twice against identical
upstream data (the same environment) produces identical sets of
(metric name, label values, value) triples, independently of emission
order — the second pass overwrites every dictionary entry with the same
family. -/
theorem collect_pass_idempotent (env : Env) (sn : String)
    (fams1 fams2 : List GaugeMetricFamily) (st1 st2 : HP3PARCollector)
    (h1 : collect env (initCollector sn) = Except.ok (fams1, st1))
    (h2 : collect env st1 = Except.ok (fams2, st2)) :
    ∀ n lv v, SampleIn fams2 n lv v ↔ SampleIn fams1 n lv v := by
  obtain ⟨hfams1, hu1⟩ := collect_ok_spec env _ fams1 st1 h1
  obtain ⟨hfams2, hu2⟩ := collect_ok_spec env _ fams2 st2 h2
  obtain ⟨hwb1, hssh1, ws1, wo1, hws1, hwo1, hst1⟩ := hp_update_metrics_spec env _ st1 hu1
  obtain ⟨hwb2, hssh2, ws2, wo2, hws2, hwo2, hst2⟩ := hp_update_metrics_spec env _ st2 hu2
  have hsn1 : st1.storage_name = sn := by
    rw [hst1, storage_name_applyWrites]
    rfl
  rw [hsn1] at hws2 hwo2
  have hwseq : ws2 = ws1 := (Except.ok.inj (hws1 ▸ hws2)).symm
  have hwoeq : wo2 = wo1 := (Except.ok.inj (hwo1 ▸ hwo2)).symm
  rw [hwseq, hwoeq] at hst2
  have hnd1 : StNodup st1 := by
    rw [hst1]; exact stNodup_applyWrites _ (stNodup_init sn)
  have hnd2 : StNodup st2 := by
    rw [hst2]; exact stNodup_applyWrites _ hnd1
  have hpt : ∀ d k, (dictOf st2 d).lookup k = (dictOf st1 d).lookup k := by
    intro d k
    have e2 : (dictOf st2 d).lookup k =
        match lastWrite (ws1 ++ wo1) d k with
        | some f => some f
        | none => (dictOf st1 d).lookup k := by
      rw [hst2]; exact lookup_dictOf_applyWrites _ _ _ _
    have e1 : (dictOf st1 d).lookup k =
        match lastWrite (ws1 ++ wo1) d k with
        | some f => some f
        | none => (dictOf (initCollector sn) d).lookup k := by
      conv_lhs => rw [hst1]
      exact lookup_dictOf_applyWrites _ _ _ _
    rw [e2]
    cases hlw : lastWrite (ws1 ++ wo1) d k with
    | some f => rw [e1, hlw]
    | none => rfl
  intro n lv v
  rw [hfams1, hfams2, sampleIn_iff_lookup hnd2, sampleIn_iff_lookup hnd1]
  constructor
  · rintro ⟨d, k, f, hlk, hn, hs⟩
    exact ⟨d, k, f, (hpt d k) ▸ hlk, hn, hs⟩
  · rintro ⟨d, k, f, hlk, hn, hs⟩
    exact ⟨d, k, f, (hpt d k).symm ▸ hlk, hn, hs⟩

/-- C9 witness: for the working fan environment the first and second
pass both serve `famsWorking`, and the health triple's membership is
unchanged across the passes. -/
theorem collect_pass_idempotent_witness :
    SampleIn famsWorking "health_Fan_1_2" ["s"] (PyVal.num 2) ↔
      SampleIn famsWorking "health_Fan_1_2" ["s"] (PyVal.num 2) :=
  collect_pass_idempotent envWorking "s" famsWorking famsWorking
    stWorking stWorking rfl rfl "health_Fan_1_2" ["s"] (PyVal.num 2)

/-- C10: every family yielded by a collection pass started from a fresh
collector carries exactly the label key `storage_name`, and holds
exactly one sample whose label value is the configured storage name. -/
theorem collect_single_sample_constant_label (env : Env) (sn : String)
    (fams : List GaugeMetricFamily) (stf : HP3PARCollector)
    (h : collect env (initCollector sn) = Except.ok (fams, stf)) :
    ∀ f ∈ fams, f.labels = ["storage_name"] ∧ ∃ v, f.samples = [([sn], v)] := by
  obtain ⟨hfams, hu⟩ := collect_ok_spec env _ fams stf h
  obtain ⟨hwb, hssh, ws, wo, hws, hwo, hst⟩ := hp_update_metrics_spec env _ stf hu
  have hgood : StGood sn stf := by
    rw [hst]
    refine stGood_applyWrites ?_ (stGood_init sn)
    intro w hw
    rcases List.mem_append.mp hw with hw | hw
    · exact statusWrites_good _ _ _ hws w hw
    · exact overprvWrites_good _ _ _ _ hwo w hw
  intro f hf
  obtain ⟨d, hd⟩ := mem_collectFamilies.mp (hfams ▸ hf)
  exact hgood d f hd

/-- C10 witness: in the working environment the served health family
has labels `["storage_name"]` and the single sample `(["s"], 2)`. -/
theorem collect_single_sample_constant_label_witness :
    (oneSample "health_Fan_1_2" "Health State of TPD_Fan" "s" (PyVal.num 2)).labels =
        ["storage_name"] ∧
      ∃ v, (oneSample "health_Fan_1_2" "Health State of TPD_Fan" "s"
        (PyVal.num 2)).samples = [(["s"], v)] :=
  collect_single_sample_constant_label envWorking "s" famsWorking stWorking rfl
    (oneSample "health_Fan_1_2" "Health State of TPD_Fan" "s" (PyVal.num 2))
    (List.mem_cons_self _ _)
